import Mathlib

/-
Shallow embedding of the credit-scoring API route handlers of this
repository — src/app/api/fairness/analyze/route.ts,
src/app/api/model/predict/route.ts and src/app/api/shap/explain/route.ts —
together with proofs about them.

Modelling conventions:
  * JavaScript numbers are modelled as exact rationals (ℚ).  The handlers
    only add, subtract, multiply, divide and compare small decimal
    constants, so no floating-point rounding behaviour is relied upon by
    any statement below; division by zero follows Lean's `x / 0 = 0`
    convention and is only reachable outside the guarded paths.
  * A JSON field that may be absent from a request is an `Option`; the
    JavaScript truthiness test `!x` on a numeric field holds exactly for
    an absent field or the value 0 (`jsFalsy`).
  * The single call to `Math.random()` in `calculateCreditScore` is made
    explicit: the handler takes the drawn value as an argument `rand`.
  * `NextResponse.json(..., { status: 400 })` is the `badRequest`
    constructor of a response type; a 200 JSON body is the `ok`
    constructor carrying the fields the response serialises.
  * The fairness handler keys its `groupMetrics` record by `String(group)`;
    the embedding keys it by the group value itself, which agrees with the
    source whenever distinct group values have distinct string forms.
-/

/-! ## Rows and group metrics (fairness/analyze/route.ts) -/

/-- One row of the uploaded dataset, as read by the fairness handler: the
value of the protected attribute column (of type `G`) and the outcome
columns the handler inspects (`predicted`, `approved`, `actual`,
`loan_status`), each possibly absent. -/
structure Row (G : Type) where
  attr : G
  predicted : Option Int
  approved : Option Int
  actual : Option Int
  loan_status : Option Int
deriving DecidableEq

/-- The filter `row.predicted === 1 || row.approved === 1`. -/
def isApprovedRow {G : Type} (r : Row G) : Bool :=
  decide (r.predicted = some 1) || decide (r.approved = some 1)

/-- The filter `row.actual === 1 || row.loan_status === 1`. -/
def isActualPositive {G : Type} (r : Row G) : Bool :=
  decide (r.actual = some 1) || decide (r.loan_status = some 1)

/-- The filter `row.actual === 0 || row.loan_status === 0`. -/
def isActualNegative {G : Type} (r : Row G) : Bool :=
  decide (r.actual = some 0) || decide (r.loan_status = some 0)

/-- The result record of `calculateGroupMetrics`. -/
structure GroupMetrics where
  totalCount : Nat
  approvalRate : ℚ
  truePositiveRate : ℚ
  falsePositiveRate : ℚ
  precision : ℚ
deriving DecidableEq

/-- The all-zero record returned for an empty group. -/
def GroupMetrics.zero : GroupMetrics :=
  { totalCount := 0, approvalRate := 0, truePositiveRate := 0,
    falsePositiveRate := 0, precision := 0 }

/-- `data.filter(row => row[groupKey] === groupValue)`; the column lookup
`row[groupKey]` is abstracted as a function `groupOf` on rows. -/
def groupRows {G : Type} [DecidableEq G] (data : List (Row G)) (groupOf : Row G → G)
    (v : G) : List (Row G) :=
  data.filter fun r => decide (groupOf r = v)

/-- `calculateGroupMetrics` of fairness/analyze/route.ts. -/
def calculateGroupMetrics {G : Type} [DecidableEq G] (data : List (Row G))
    (groupOf : Row G → G) (v : G) : GroupMetrics :=
  let groupData := groupRows data groupOf v
  let totalCount := groupData.length
  if totalCount = 0 then GroupMetrics.zero
  else
    let approvedCount := (groupData.filter isApprovedRow).length
    let actualPositiveCount := (groupData.filter isActualPositive).length
    let actualNegativeCount := (groupData.filter isActualNegative).length
    let truePositives :=
      (groupData.filter fun r => isApprovedRow r && isActualPositive r).length
    let falsePositives :=
      (groupData.filter fun r => isApprovedRow r && isActualNegative r).length
    { totalCount := totalCount
      approvalRate := (approvedCount : ℚ) / (totalCount : ℚ)
      truePositiveRate :=
        if actualPositiveCount > 0 then (truePositives : ℚ) / (actualPositiveCount : ℚ) else 0
      falsePositiveRate :=
        if actualNegativeCount > 0 then (falsePositives : ℚ) / (actualNegativeCount : ℚ) else 0
      precision :=
        if approvedCount > 0 then (truePositives : ℚ) / (approvedCount : ℚ) else 0 }

/-! ## The fairness/analyze POST handler -/

/-- `Math.max(...xs)` over a non-empty argument list (the handler only
applies it to the non-empty list of per-group rates). -/
def listMax : List ℚ → ℚ
  | [] => 0
  | [x] => x
  | x :: y :: t => max x (listMax (y :: t))

/-- `Math.min(...xs)` over a non-empty argument list. -/
def listMin : List ℚ → ℚ
  | [] => 0
  | [x] => x
  | x :: y :: t => min x (listMin (y :: t))

/-- `[...new Set(data.map(row => row[protectedAttribute]))]`: the distinct
values the protected attribute takes among the rows. -/
def uniqueGroups {G : Type} [DecidableEq G] (rows : List (Row G))
    (groupOf : Row G → G) : List G :=
  (rows.map groupOf).dedup

/-- The per-group approval rates, in the order the handler enumerates the
groups (`Object.values(groupMetrics).map(m => m.approvalRate)`). -/
def groupApprovalRates {G : Type} [DecidableEq G] (rows : List (Row G))
    (groupOf : Row G → G) : List ℚ :=
  (uniqueGroups rows groupOf).map fun v => (calculateGroupMetrics rows groupOf v).approvalRate

/-- The per-group true-positive rates, in the same order. -/
def groupTprValues {G : Type} [DecidableEq G] (rows : List (Row G))
    (groupOf : Row G → G) : List ℚ :=
  (uniqueGroups rows groupOf).map fun v => (calculateGroupMetrics rows groupOf v).truePositiveRate

/-- The highest per-group approval rate (`maxApprovalRate`). -/
def maxApprovalRate {G : Type} [DecidableEq G] (rows : List (Row G))
    (groupOf : Row G → G) : ℚ :=
  listMax (groupApprovalRates rows groupOf)

/-- The lowest per-group approval rate (`minApprovalRate`). -/
def minApprovalRate {G : Type} [DecidableEq G] (rows : List (Row G))
    (groupOf : Row G → G) : ℚ :=
  listMin (groupApprovalRates rows groupOf)

/-- The fields of the successful fairness response body that carry the
computed metrics (`fairness.metrics` and `fairness.complianceStatus`),
plus the per-group metrics record. -/
structure FairnessResult (G : Type) where
  demographicParityDifference : ℚ
  equalOpportunityDifference : ℚ
  disparateImpact : ℚ
  rule80 : Bool
  demographicParityOk : Bool
  equalOpportunityOk : Bool
  groupMetrics : List (G × GroupMetrics)
deriving DecidableEq

/-- Outcome of the fairness POST handler: a 400 JSON error or a 200 body. -/
inductive FairnessResponse (G : Type) where
  | badRequest (error : String)
  | ok (fairness : FairnessResult G)
deriving DecidableEq

/-- Whether the response is a 400. -/
def FairnessResponse.isBadRequest {G : Type} : FairnessResponse G → Bool
  | .badRequest _ => true
  | .ok _ => false

/-- The 200 body, when there is one. -/
def FairnessResponse.okResult {G : Type} : FairnessResponse G → Option (FairnessResult G)
  | .badRequest _ => none
  | .ok r => some r

/-- The 200 body the fairness handler builds once validation has passed. -/
def fairnessOkBody {G : Type} [DecidableEq G] (rows : List (Row G))
    (groupOf : Row G → G) : FairnessResult G :=
  let maxRate := maxApprovalRate rows groupOf
  let minRate := minApprovalRate rows groupOf
  let demographicParityDifference := maxRate - minRate
  let equalOpportunityDifference :=
    listMax (groupTprValues rows groupOf) - listMin (groupTprValues rows groupOf)
  let disparateImpact := minRate / (if maxRate = 0 then 1 else maxRate)
  { demographicParityDifference := demographicParityDifference
    equalOpportunityDifference := equalOpportunityDifference
    disparateImpact := disparateImpact
    rule80 := decide (disparateImpact ≥ 0.8)
    demographicParityOk := decide (demographicParityDifference ≤ 0.1)
    equalOpportunityOk := decide (equalOpportunityDifference ≤ 0.1)
    groupMetrics := (uniqueGroups rows groupOf).map fun v =>
      (v, calculateGroupMetrics rows groupOf v) }

/-- The `POST` handler of fairness/analyze/route.ts.  `data` is `none` when
the request body's `data` is absent or not an array (both fail the
`!data || !Array.isArray(data)` test). -/
def fairnessPOST {G : Type} [DecidableEq G] (data : Option (List (Row G)))
    (groupOf : Row G → G) : FairnessResponse G :=
  match data with
  | none => .badRequest "Invalid data provided"
  | some rows =>
    if rows.length = 0 then .badRequest "Invalid data provided"
    else if (uniqueGroups rows groupOf).length < 2 then
      .badRequest "Need at least 2 groups for fairness analysis"
    else .ok (fairnessOkBody rows groupOf)

/-! ## The credit-scoring function (model/predict/route.ts) -/

/-- The feature object consumed by `calculateCreditScore` once the required
fields are known to be present.  `debtToIncome` keeps its optionality: its
destructuring default is `loanAmount / (income || 1)`.  The destructured
`numCreditLines` (default 3) is never read by the handler and is omitted. -/
structure Features where
  age : ℚ
  income : ℚ
  creditScore : ℚ
  loanAmount : ℚ
  employmentLength : ℚ
  homeOwnership : String
  debtToIncome : Option ℚ
  derogatory : ℚ
deriving DecidableEq

/-- The effective debt-to-income value: the submitted one, or the default
`loanAmount / (income || 1)`. -/
def debtToIncomeOf (f : Features) : ℚ :=
  f.debtToIncome.getD (f.loanAmount / (if f.income = 0 then 1 else f.income))

/-- Credit-score branch of `calculateCreditScore`: the probability
adjustment and the reasoning entries it pushes. -/
def creditScoreAdj (creditScore : ℚ) : ℚ × List String :=
  if creditScore ≥ 750 then (0.25, ["Excellent credit score (750+)"])
  else if creditScore ≥ 700 then (0.18, ["Good credit score (700-749)"])
  else if creditScore ≥ 650 then (0.10, ["Fair credit score (650-699)"])
  else if creditScore ≥ 600 then (0.02, ["Below average credit score (600-649)"])
  else (-0.15, ["Poor credit score (<600)"])

/-- Loan-to-income branch (`incomeRatio = loanAmount / income`). -/
def incomeRatioAdj (incomeRatio : ℚ) : ℚ × List String :=
  if incomeRatio < 2 then (0.15, ["Low loan-to-income ratio"])
  else if incomeRatio < 3 then (0.08, ["Moderate loan-to-income ratio"])
  else if incomeRatio < 4 then (-0.05, ["High loan-to-income ratio"])
  else (-0.12, ["Very high loan-to-income ratio"])

/-- Loan-amount branch. -/
def loanAmountAdj (loanAmount : ℚ) : ℚ × List String :=
  if loanAmount < 25000 then (0.10, ["Small loan amount"])
  else if loanAmount < 50000 then (0.05, [])
  else if loanAmount > 100000 then (-0.08, ["Large loan amount"])
  else (0, [])

/-- Debt-to-income branch. -/
def dtiAdj (debtToIncome : ℚ) : ℚ × List String :=
  if debtToIncome < 0.3 then (0.08, ["Low debt-to-income ratio"])
  else if debtToIncome > 0.5 then (-0.10, ["High debt-to-income ratio"])
  else (0, [])

/-- Employment-length branch. -/
def employmentAdj (employmentLength : ℚ) : ℚ × List String :=
  if employmentLength ≥ 5 then (0.06, ["Stable employment history (5+ years)"])
  else if employmentLength ≥ 2 then (0.03, [])
  else (-0.04, ["Short employment history"])

/-- Age branch. -/
def ageAdj (age : ℚ) : ℚ × List String :=
  if 35 ≤ age ∧ age ≤ 55 then (0.05, ["Optimal age range for credit"])
  else if age < 25 then (-0.03, [])
  else (0, [])

/-- Home-ownership branch. -/
def homeAdj (homeOwnership : String) : ℚ × List String :=
  if homeOwnership = "own" then (0.04, ["Home ownership"])
  else if homeOwnership = "mortgage" then (0.02, [])
  else (0, [])

/-- Derogatory-marks branch: `-0.10 * derogatory` when any marks exist. -/
def derogatoryAdj (derogatory : ℚ) : ℚ × List String :=
  if derogatory > 0 then (-0.10 * derogatory, [toString derogatory ++ " derogatory mark(s)"])
  else (0, [])

/-- The probability accumulated by `calculateCreditScore` before clamping:
the base value 0.5 plus each branch's adjustment. -/
def rawScore (f : Features) : ℚ :=
  0.5 + (creditScoreAdj f.creditScore).1 + (incomeRatioAdj (f.loanAmount / f.income)).1
    + (loanAmountAdj f.loanAmount).1 + (dtiAdj (debtToIncomeOf f)).1
    + (employmentAdj f.employmentLength).1 + (ageAdj f.age).1
    + (homeAdj f.homeOwnership).1 + (derogatoryAdj f.derogatory).1

/-- `Math.max(0.05, Math.min(0.95, x))`. -/
def clampProb (x : ℚ) : ℚ :=
  max 0.05 (min 0.95 x)

/-- The reasoning list accumulated by `calculateCreditScore`, in push order. -/
def scoreReasoning (f : Features) : List String :=
  (creditScoreAdj f.creditScore).2 ++ (incomeRatioAdj (f.loanAmount / f.income)).2
    ++ (loanAmountAdj f.loanAmount).2 ++ (dtiAdj (debtToIncomeOf f)).2
    ++ (employmentAdj f.employmentLength).2 ++ (ageAdj f.age).2
    ++ (homeAdj f.homeOwnership).2 ++ (derogatoryAdj f.derogatory).2

/-- The return value of `calculateCreditScore`. -/
structure CreditResult where
  approved : Bool
  probability : ℚ
  confidence : ℚ
  riskScore : ℚ
  reasoning : List String
deriving DecidableEq

/-- `calculateCreditScore` of model/predict/route.ts.  `rand` is the value
drawn by the one call to `Math.random()` (so `0 ≤ rand < 1` on a real run);
`hasAllFeatures` is the truthiness test `creditScore && income && loanAmount`
on the numeric feature values. -/
def calculateCreditScore (f : Features) (rand : ℚ) : CreditResult :=
  let probability := clampProb (rawScore f)
  let hasAllFeatures := f.creditScore ≠ 0 ∧ f.income ≠ 0 ∧ f.loanAmount ≠ 0
  { approved := decide (probability > 0.5)
    probability := probability
    confidence := if hasAllFeatures then 0.78 + rand * 0.12 else 0.65
    riskScore := (1 - probability) * 100
    reasoning := scoreReasoning f }

/-! ## The model/predict POST handler -/

/-- The request body fields the predict handler reads.  The three validated
fields are optional; a JavaScript request could of course omit the others
too, in which case every comparison on them is false — the embedding fixes
them to supplied values, which covers every validated request. -/
structure PredictRequest where
  creditScore : Option ℚ
  income : Option ℚ
  loanAmount : Option ℚ
  age : ℚ
  employmentLength : ℚ
  homeOwnership : String
  debtToIncome : Option ℚ
  derogatory : ℚ
deriving DecidableEq

/-- JavaScript truthiness-failure `!x` of an optional numeric field:
absent, or present with value 0. -/
def jsFalsy (v : Option ℚ) : Bool :=
  decide (v = none) || decide (v = some 0)

/-- The `Features` object a validated request yields (after validation the
three `getD 0` defaults are never taken). -/
def requestFeatures (req : PredictRequest) : Features :=
  { age := req.age
    income := req.income.getD 0
    creditScore := req.creditScore.getD 0
    loanAmount := req.loanAmount.getD 0
    employmentLength := req.employmentLength
    homeOwnership := req.homeOwnership
    debtToIncome := req.debtToIncome
    derogatory := req.derogatory }

/-- The `shapValues` object the predict handler attaches to its response. -/
structure PredictShap where
  creditScore : ℚ
  income : ℚ
  loanAmount : ℚ
  debtToIncome : ℚ
  employmentLength : ℚ
  age : ℚ
  homeOwnership : ℚ
deriving DecidableEq

/-- The SHAP-like contribution table of the predict handler. -/
def predictShapValues (f : Features) : PredictShap :=
  { creditScore := if f.creditScore ≥ 700 then 0.18 else -0.12
    income := if f.income ≥ 60000 then 0.12 else -0.08
    loanAmount := if f.loanAmount ≤ 50000 then 0.08 else -0.10
    debtToIncome := if f.loanAmount / f.income < 3 then 0.07 else -0.09
    employmentLength := if f.employmentLength ≥ 3 then 0.05 else -0.03
    age := if 30 ≤ f.age ∧ f.age ≤ 60 then 0.04 else -0.02
    homeOwnership := if f.homeOwnership = "own" then 0.03 else -0.01 }

/-- Outcome of the predict POST handler. -/
inductive PredictResponse where
  | badRequest (error : String)
  | ok (pred : CreditResult) (shap : PredictShap)
deriving DecidableEq

/-- Whether the response is a 400. -/
def PredictResponse.isBadRequest : PredictResponse → Bool
  | .badRequest _ => true
  | .ok _ _ => false

/-- The confidence field of a successful response. -/
def PredictResponse.confidenceOf : PredictResponse → Option ℚ
  | .badRequest _ => none
  | .ok pred _ => some pred.confidence

/-- The response with its one randomness-dependent field (`confidence`)
zeroed out; everything this keeps is the deterministic part. -/
def PredictResponse.scrubConfidence : PredictResponse → PredictResponse
  | .badRequest e => .badRequest e
  | .ok pred shap => .ok { pred with confidence := 0 } shap

/-- The `POST` handler of model/predict/route.ts. -/
def predictPOST (req : PredictRequest) (rand : ℚ) : PredictResponse :=
  if jsFalsy req.creditScore || jsFalsy req.income || jsFalsy req.loanAmount then
    .badRequest "Missing required fields: creditScore, income, loanAmount"
  else
    let features := requestFeatures req
    .ok (calculateCreditScore features rand) (predictShapValues features)

/-! ## The SHAP explanation route (shap/explain/route.ts) -/

/-- One entry of the `shapValues` array built by `calculateShapValues`:
the feature name, the raw feature value it reports (a number, or a string
for `homeOwnership`), the contribution and the display name. -/
structure ShapEntry where
  feature : String
  value : ℚ ⊕ String
  contribution : ℚ
  displayName : String
deriving DecidableEq

/-- Credit-score contribution of `calculateShapValues`. -/
def shapCreditContribution (creditScore : ℚ) : ℚ :=
  if creditScore ≥ 750 then 0.22
  else if creditScore ≥ 700 then 0.15
  else if creditScore ≥ 650 then 0.08
  else if creditScore ≥ 600 then 0.02
  else -0.12

/-- Income contribution. -/
def shapIncomeContribution (income : ℚ) : ℚ :=
  if income ≥ 80000 then 0.15
  else if income ≥ 60000 then 0.10
  else if income ≥ 40000 then 0.05
  else if income ≥ 30000 then 0
  else -0.08

/-- Loan-amount contribution. -/
def shapLoanContribution (loanAmount : ℚ) : ℚ :=
  if loanAmount ≤ 25000 then 0.08
  else if loanAmount ≤ 50000 then 0.04
  else if loanAmount ≤ 75000 then 0
  else if loanAmount ≤ 100000 then -0.05
  else -0.10

/-- Debt-to-income contribution. -/
def shapDtiContribution (debtToIncome : ℚ) : ℚ :=
  if debtToIncome < 2 then 0.10
  else if debtToIncome < 3 then 0.05
  else if debtToIncome < 4 then -0.03
  else -0.12

/-- Employment-length contribution. -/
def shapEmploymentContribution (employmentLength : ℚ) : ℚ :=
  if employmentLength ≥ 10 then 0.08
  else if employmentLength ≥ 5 then 0.06
  else if employmentLength ≥ 2 then 0.03
  else if employmentLength ≥ 1 then 0
  else -0.04

/-- Age contribution. -/
def shapAgeContribution (age : ℚ) : ℚ :=
  if 35 ≤ age ∧ age ≤ 55 then 0.06
  else if 25 ≤ age ∧ age < 35 then 0.03
  else if 55 ≤ age ∧ age ≤ 65 then 0.02
  else if age < 25 then -0.03
  else -0.02

/-- Home-ownership contribution. -/
def shapHomeContribution (homeOwnership : String) : ℚ :=
  if homeOwnership = "own" then 0.05
  else if homeOwnership = "mortgage" then 0.02
  else 0

/-- Derogatory-marks contribution: `-0.10 * derogatory` when marks exist,
`0.02` otherwise — within the `derogatory > 0` branch the value is
proportional to the count, not a constant of the branch. -/
def shapDerogContribution (derogatory : ℚ) : ℚ :=
  if derogatory > 0 then -0.10 * derogatory else 0.02

/-- The eight `shapValues.push(...)` entries, in push order, before the
final sort. -/
def shapEntries (f : Features) : List ShapEntry :=
  [ { feature := "creditScore", value := .inl f.creditScore,
      contribution := shapCreditContribution f.creditScore, displayName := "Credit Score" },
    { feature := "income", value := .inl f.income,
      contribution := shapIncomeContribution f.income, displayName := "Annual Income" },
    { feature := "loanAmount", value := .inl f.loanAmount,
      contribution := shapLoanContribution f.loanAmount, displayName := "Loan Amount" },
    { feature := "debtToIncome", value := .inl (debtToIncomeOf f),
      contribution := shapDtiContribution (debtToIncomeOf f),
      displayName := "Debt-to-Income Ratio" },
    { feature := "employmentLength", value := .inl f.employmentLength,
      contribution := shapEmploymentContribution f.employmentLength,
      displayName := "Employment Length" },
    { feature := "age", value := .inl f.age,
      contribution := shapAgeContribution f.age, displayName := "Age" },
    { feature := "homeOwnership", value := .inr f.homeOwnership,
      contribution := shapHomeContribution f.homeOwnership, displayName := "Home Ownership" },
    { feature := "derogatory", value := .inl f.derogatory,
      contribution := shapDerogContribution f.derogatory, displayName := "Derogatory Marks" } ]

/-- `Math.abs`. -/
def absQ (q : ℚ) : ℚ :=
  if q < 0 then -q else q

/-- Stable insertion of an entry into a list already sorted by decreasing
absolute contribution: the entry goes after every element whose absolute
contribution is strictly larger, and before equal ones it precedes in the
original order. -/
def insertByAbsDesc (e : ShapEntry) : List ShapEntry → List ShapEntry
  | [] => [e]
  | x :: xs =>
    if absQ x.contribution > absQ e.contribution then x :: insertByAbsDesc e xs
    else e :: x :: xs

/-- The stable sort `shapValues.sort((a, b) => |b.contribution| - |a.contribution|)`
(JavaScript array sort is stable), as a stable insertion sort. -/
def sortByAbsDesc : List ShapEntry → List ShapEntry
  | [] => []
  | x :: xs => insertByAbsDesc x (sortByAbsDesc xs)

set_option linter.unusedVariables false in
/-- `calculateShapValues` of shap/explain/route.ts.  The `prediction`
argument is received but never read by the function body. -/
def calculateShapValues (f : Features) (prediction : ℚ) : List ShapEntry :=
  sortByAbsDesc (shapEntries f)

/-- The contribution reported for a named feature. -/
def contributionOf (entries : List ShapEntry) (name : String) : Option ℚ :=
  (entries.find? fun e => decide (e.feature = name)).map fun e => e.contribution

/-- The fields of the successful individual-explanation response body the
claims are about (`baseValue`, `shapValues`, `finalPrediction`, and the
`interpretation` decision and confidence). -/
structure ShapExplanation where
  baseValue : ℚ
  shapValues : List ShapEntry
  finalPrediction : ℚ
  decision : String
  interpretationConfidence : ℚ
deriving DecidableEq

/-- Outcome of the SHAP POST handler. -/
inductive ShapResponse where
  | globalOk (featureImportance : List (String × ℚ))
  | badRequest (error : String)
  | ok (explanation : ShapExplanation)
deriving DecidableEq

/-- The 200 individual-explanation body, when there is one. -/
def ShapResponse.okExplanation : ShapResponse → Option ShapExplanation
  | .ok e => some e
  | _ => none

/-- The derogatory-marks entry of `shapEntries`. -/
def derogEntry (f : Features) : ShapEntry :=
  { feature := "derogatory", value := Sum.inl f.derogatory,
    contribution := shapDerogContribution f.derogatory,
    displayName := "Derogatory Marks" }

/-- The 200 body of an individual explanation: the sorted contribution
list, the clamped final prediction `0.5 + Σ contributions`, and the
interpretation decision. -/
def shapOkBody (f : Features) (predictionValue : ℚ) : ShapExplanation :=
  let shapValues := calculateShapValues f predictionValue
  let totalContribution := shapValues.foldl (fun s sv => s + sv.contribution) 0
  let finalPrediction := max 0.05 (min 0.95 (0.5 + totalContribution))
  { baseValue := 0.5
    shapValues := shapValues
    finalPrediction := finalPrediction
    decision := if finalPrediction > 0.5 then "Approved" else "Rejected"
    interpretationConfidence := absQ (finalPrediction - 0.5) * 2 }

/-- `generateGlobalImportance` of shap/explain/route.ts. -/
def generateGlobalImportance : List (String × ℚ) :=
  [ ("Credit Score", 0.28), ("Annual Income", 0.19), ("Loan Amount", 0.15),
    ("Debt-to-Income", 0.12), ("Employment Length", 0.09), ("Age", 0.08),
    ("Home Ownership", 0.05), ("Credit Lines", 0.03), ("Derogatory Marks", 0.01) ]

/-- The `POST` handler of shap/explain/route.ts.  `ty` is the request's
`type` field (default `"individual"`); `prediction` is absent or a number,
and `prediction || 0.5` maps both absence and 0 to 0.5. -/
def shapPOST (features : Option Features) (prediction : Option ℚ) (ty : String) :
    ShapResponse :=
  if ty = "global" then .globalOk generateGlobalImportance
  else
    match features with
    | none => .badRequest "Features required for individual explanation"
    | some f =>
      let predictionValue :=
        match prediction with
        | none => 0.5
        | some p => if p = 0 then 0.5 else p
      .ok (shapOkBody f predictionValue)

/-! ## Concrete sample inputs

Small concrete requests the development evaluates the handlers on. -/

/-- A two-row dataset: the `true` group is approved, the `false` group is
not, so it has two distinct protected-attribute values. -/
def sampleRows : List (Row Bool) :=
  [ { attr := true, predicted := some 1, approved := none,
      actual := some 1, loan_status := none },
    { attr := false, predicted := some 0, approved := none,
      actual := some 1, loan_status := none } ]

/-- Fallback body (only used to extract a known-successful response). -/
def emptyFairnessResult : FairnessResult Bool :=
  { demographicParityDifference := 0, equalOpportunityDifference := 0,
    disparateImpact := 0, rule80 := false, demographicParityOk := false,
    equalOpportunityOk := false, groupMetrics := [] }

/-- The successful fairness response body for `sampleRows` grouped by the
protected attribute. -/
def sampleFairnessResult : FairnessResult Bool :=
  ((fairnessPOST (some sampleRows) Row.attr).okResult).getD emptyFairnessResult

/-- A fully-populated valid predict request. -/
def validRequest : PredictRequest :=
  { creditScore := some 720, income := some 60000, loanAmount := some 30000,
    age := 40, employmentLength := 5, homeOwnership := "own",
    debtToIncome := none, derogatory := 0 }

/-- The same request with `creditScore` present but equal to 0. -/
def zeroScoreRequest : PredictRequest :=
  { validRequest with creditScore := some 0 }

/-- SHAP request features with one derogatory mark. -/
def derogOneFeatures : Features :=
  { age := 40, income := 50000, creditScore := 700, loanAmount := 20000,
    employmentLength := 5, homeOwnership := "rent", debtToIncome := some 1,
    derogatory := 1 }

/-- The same features with two derogatory marks — still in the
`derogatory > 0` branch. -/
def derogTwoFeatures : Features :=
  { derogOneFeatures with derogatory := 2 }

/-- Features for a successful individual SHAP explanation. -/
def sampleShapFeatures : Features :=
  { age := 40, income := 70000, creditScore := 720, loanAmount := 30000,
    employmentLength := 6, homeOwnership := "own", debtToIncome := none,
    derogatory := 0 }

/-- Fallback explanation (only used to extract a known-successful body). -/
def emptyShapExplanation : ShapExplanation :=
  { baseValue := 0, shapValues := [], finalPrediction := 0,
    decision := "", interpretationConfidence := 0 }

/-- The successful individual explanation for `sampleShapFeatures`. -/
def sampleShapExplanation : ShapExplanation :=
  ((shapPOST (some sampleShapFeatures) none "individual").okExplanation).getD
    emptyShapExplanation

/-! ## General lemmas: list extrema, ratios, filters, sorting -/

theorem le_listMax : ∀ (l : List ℚ) (x : ℚ), x ∈ l → x ≤ listMax l := by
  intro l
  induction l with
  | nil => intro x hx; cases hx
  | cons a t ih =>
    intro x hx
    cases t with
    | nil =>
      rcases List.mem_cons.mp hx with h | h
      · subst h; show x ≤ x; exact le_refl x
      · cases h
    | cons b u =>
      show x ≤ max a (listMax (b :: u))
      rcases List.mem_cons.mp hx with h | h
      · subst h; exact le_max_left _ _
      · exact le_trans (ih x h) (le_max_right _ _)

theorem listMin_le : ∀ (l : List ℚ) (x : ℚ), x ∈ l → listMin l ≤ x := by
  intro l
  induction l with
  | nil => intro x hx; cases hx
  | cons a t ih =>
    intro x hx
    cases t with
    | nil =>
      rcases List.mem_cons.mp hx with h | h
      · subst h; show x ≤ x; exact le_refl x
      · cases h
    | cons b u =>
      show min a (listMin (b :: u)) ≤ x
      rcases List.mem_cons.mp hx with h | h
      · subst h; exact min_le_left _ _
      · exact le_trans (min_le_right _ _) (ih x h)

theorem listMin_mem : ∀ (l : List ℚ), l ≠ [] → listMin l ∈ l := by
  intro l
  induction l with
  | nil => intro h; exact absurd rfl h
  | cons a t ih =>
    intro _
    cases t with
    | nil => show a ∈ [a]; exact List.mem_cons_self a []
    | cons b u =>
      show min a (listMin (b :: u)) ∈ a :: b :: u
      rcases le_total a (listMin (b :: u)) with hle | hle
      · rw [min_eq_left hle]; exact List.mem_cons_self a _
      · rw [min_eq_right hle]
        exact List.mem_cons_of_mem a (ih (by simp))

theorem listMin_le_listMax (l : List ℚ) (h : l ≠ []) : listMin l ≤ listMax l :=
  le_listMax l (listMin l) (listMin_mem l h)

theorem natDiv_unit (a b : ℕ) (h : a ≤ b) :
    0 ≤ (a : ℚ) / (b : ℚ) ∧ (a : ℚ) / (b : ℚ) ≤ 1 := by
  constructor
  · positivity
  · rcases Nat.eq_zero_or_pos b with hb | hb
    · subst hb
      have : a = 0 := Nat.le_zero.mp h
      subst this
      norm_num
    · rw [div_le_one (by exact_mod_cast hb)]
      exact_mod_cast h

theorem clampProb_lower (x : ℚ) : 0.05 ≤ clampProb x :=
  le_max_left _ _

theorem clampProb_upper (x : ℚ) : clampProb x ≤ 0.95 :=
  max_le (by norm_num) (min_le_left _ _)

theorem clampProb_gt_half (x : ℚ) : 0.5 < clampProb x ↔ 0.5 < x := by
  unfold clampProb
  rw [lt_max_iff, lt_min_iff]
  constructor
  · rintro (h | ⟨_, h2⟩)
    · norm_num at h
    · exact h2
  · intro h
    exact Or.inr ⟨by norm_num, h⟩

theorem foldl_add_contribution :
    ∀ (l : List ShapEntry) (i : ℚ),
      l.foldl (fun s sv => s + sv.contribution) i =
        i + (l.map fun e => e.contribution).sum := by
  intro l
  induction l with
  | nil => intro i; simp
  | cons a t ih =>
    intro i
    simp only [List.foldl_cons, List.map_cons, List.sum_cons]
    rw [ih]
    ring

theorem insertByAbsDesc_perm (e : ShapEntry) :
    ∀ l : List ShapEntry, (insertByAbsDesc e l).Perm (e :: l) := by
  intro l
  induction l with
  | nil => exact List.Perm.refl _
  | cons x xs ih =>
    show (if absQ x.contribution > absQ e.contribution
        then x :: insertByAbsDesc e xs else e :: x :: xs).Perm (e :: x :: xs)
    by_cases hc : absQ x.contribution > absQ e.contribution
    · rw [if_pos hc]
      exact (ih.cons x).trans (List.Perm.swap e x xs)
    · rw [if_neg hc]

theorem sortByAbsDesc_perm : ∀ l : List ShapEntry, (sortByAbsDesc l).Perm l := by
  intro l
  induction l with
  | nil => exact List.Perm.refl _
  | cons x xs ih =>
    show (insertByAbsDesc x (sortByAbsDesc xs)).Perm (x :: xs)
    exact (insertByAbsDesc_perm x (sortByAbsDesc xs)).trans (ih.cons x)

theorem find?_eq_of_unique {α : Type} (p : α → Bool) :
    ∀ (l : List α) (a : α), a ∈ l → p a = true →
      (∀ x, x ∈ l → p x = true → x = a) → l.find? p = some a := by
  intro l
  induction l with
  | nil => intro a ha; cases ha
  | cons x t ih =>
    intro a ha hpa huniq
    by_cases hx : p x = true
    · have hxa : x = a := huniq x (List.mem_cons_self x t) hx
      subst hxa
      exact List.find?_cons_of_pos t hx
    · have hax : a ≠ x := fun h => hx (h ▸ hpa)
      have ha' : a ∈ t := by
        rcases List.mem_cons.mp ha with h | h
        · exact absurd h hax
        · exact h
      rw [List.find?_cons_of_neg t hx]
      exact ih a ha' hpa fun y hy hpy => huniq y (List.mem_cons_of_mem x hy) hpy

/-! ## Lemmas about the fairness handler -/

theorem approvalRate_nonneg {G : Type} [DecidableEq G] (data : List (Row G))
    (groupOf : Row G → G) (v : G) :
    0 ≤ (calculateGroupMetrics data groupOf v).approvalRate := by
  rw [calculateGroupMetrics]
  by_cases hz : (groupRows data groupOf v).length = 0
  · simp [hz, GroupMetrics.zero]
  · simp only [hz, if_false]
    positivity

theorem groupApprovalRates_nonneg {G : Type} [DecidableEq G] (rows : List (Row G))
    (groupOf : Row G → G) (x : ℚ) (hx : x ∈ groupApprovalRates rows groupOf) : 0 ≤ x := by
  rw [groupApprovalRates] at hx
  rcases List.mem_map.mp hx with ⟨v, _, hv⟩
  exact hv ▸ approvalRate_nonneg rows groupOf v

theorem groupApprovalRates_ne_nil {G : Type} [DecidableEq G] (rows : List (Row G))
    (groupOf : Row G → G) (h2 : 2 ≤ (uniqueGroups rows groupOf).length) :
    groupApprovalRates rows groupOf ≠ [] := by
  rw [groupApprovalRates]
  intro hnil
  rw [← List.length_eq_zero, List.length_map] at hnil
  omega

theorem minApprovalRate_eq_zero_of_max {G : Type} [DecidableEq G] (rows : List (Row G))
    (groupOf : Row G → G) (h2 : 2 ≤ (uniqueGroups rows groupOf).length)
    (hm : maxApprovalRate rows groupOf = 0) : minApprovalRate rows groupOf = 0 := by
  have hne := groupApprovalRates_ne_nil rows groupOf h2
  have hmin_le : minApprovalRate rows groupOf ≤ 0 :=
    hm ▸ listMin_le_listMax _ hne
  have hmin_ge : 0 ≤ minApprovalRate rows groupOf :=
    groupApprovalRates_nonneg rows groupOf _ (listMin_mem _ hne)
  exact le_antisymm hmin_le hmin_ge

theorem fairnessPOST_ok_inv {G : Type} [DecidableEq G]
    {data : Option (List (Row G))} {groupOf : Row G → G} {res : FairnessResult G}
    (h : fairnessPOST data groupOf = FairnessResponse.ok res) :
    ∃ rows, data = some rows ∧ rows.length ≠ 0 ∧
      2 ≤ (uniqueGroups rows groupOf).length ∧ res = fairnessOkBody rows groupOf := by
  cases data with
  | none => exact absurd h (by simp [fairnessPOST])
  | some rows =>
    simp only [fairnessPOST] at h
    by_cases h1 : rows.length = 0
    · simp [h1] at h
    · by_cases h2 : (uniqueGroups rows groupOf).length < 2
      · simp [h1, h2] at h
      · rw [if_neg h1, if_neg h2] at h
        have := FairnessResponse.ok.inj h
        exact ⟨rows, rfl, h1, by omega, this.symm⟩

theorem fairnessPOST_ok_of {G : Type} [DecidableEq G]
    (rows : List (Row G)) (groupOf : Row G → G) (h1 : rows.length ≠ 0)
    (h2 : ¬ (uniqueGroups rows groupOf).length < 2) :
    fairnessPOST (some rows) groupOf = FairnessResponse.ok (fairnessOkBody rows groupOf) := by
  simp only [fairnessPOST]
  rw [if_neg h1, if_neg h2]

theorem fairnessOkBody_disparateImpact {G : Type} [DecidableEq G]
    (rows : List (Row G)) (groupOf : Row G → G)
    (h2 : 2 ≤ (uniqueGroups rows groupOf).length) :
    (fairnessOkBody rows groupOf).disparateImpact =
      minApprovalRate rows groupOf / maxApprovalRate rows groupOf := by
  show minApprovalRate rows groupOf /
      (if maxApprovalRate rows groupOf = 0 then 1 else maxApprovalRate rows groupOf) =
    minApprovalRate rows groupOf / maxApprovalRate rows groupOf
  by_cases hm : maxApprovalRate rows groupOf = 0
  · rw [if_pos hm, minApprovalRate_eq_zero_of_max rows groupOf h2 hm, hm]
    norm_num
  · rw [if_neg hm]

/-! ## Claim C1 -/

/-- Claim C1: for every fairness/analyze request the handler answers
successfully (non-empty data array, protected attribute taking at least two
distinct values — exactly the requests for which `fairnessPOST` returns
`ok`), the returned `disparateImpact` equals the ratio of the minimum to the
maximum per-group approval rate, and `complianceStatus['80PercentRule']` is
true iff that ratio is at least 0.8. -/
theorem fairness_disparateImpact_spec {G : Type} [DecidableEq G]
    (rows : List (Row G)) (groupOf : Row G → G) (res : FairnessResult G)
    (h : fairnessPOST (some rows) groupOf = FairnessResponse.ok res) :
    res.disparateImpact = minApprovalRate rows groupOf / maxApprovalRate rows groupOf ∧
    (res.rule80 = true ↔
      minApprovalRate rows groupOf / maxApprovalRate rows groupOf ≥ 0.8) := by
  obtain ⟨rows', heq, h1, h2, hres⟩ := fairnessPOST_ok_inv h
  cases Option.some.inj heq
  subst hres
  have hdi := fairnessOkBody_disparateImpact rows groupOf h2
  refine ⟨hdi, ?_⟩
  show decide ((fairnessOkBody rows groupOf).disparateImpact ≥ 0.8) = true ↔ _
  rw [hdi, decide_eq_true_eq]

/-- Witness for C1 on the two-row sample dataset. -/
theorem fairness_disparateImpact_spec_witness :
    sampleFairnessResult.disparateImpact =
      minApprovalRate sampleRows Row.attr / maxApprovalRate sampleRows Row.attr ∧
    (sampleFairnessResult.rule80 = true ↔
      minApprovalRate sampleRows Row.attr / maxApprovalRate sampleRows Row.attr ≥ 0.8) :=
  fairness_disparateImpact_spec sampleRows Row.attr sampleFairnessResult rfl

/-! ## Claim C2 -/

/-- Claim C2: for every fairness/analyze request the handler answers
successfully, the returned `demographicParityDifference` equals the highest
per-group approval rate minus the lowest, which is their absolute
difference. -/
theorem fairness_demographicParity_spec {G : Type} [DecidableEq G]
    (rows : List (Row G)) (groupOf : Row G → G) (res : FairnessResult G)
    (h : fairnessPOST (some rows) groupOf = FairnessResponse.ok res) :
    res.demographicParityDifference =
      maxApprovalRate rows groupOf - minApprovalRate rows groupOf ∧
    res.demographicParityDifference =
      |maxApprovalRate rows groupOf - minApprovalRate rows groupOf| := by
  obtain ⟨rows', heq, h1, h2, hres⟩ := fairnessPOST_ok_inv h
  cases Option.some.inj heq
  subst hres
  have hd : (fairnessOkBody rows groupOf).demographicParityDifference =
      maxApprovalRate rows groupOf - minApprovalRate rows groupOf := rfl
  refine ⟨hd, ?_⟩
  rw [hd, eq_comm, abs_of_nonneg]
  rw [sub_nonneg]
  exact listMin_le_listMax _ (groupApprovalRates_ne_nil rows groupOf h2)

/-- Witness for C2 on the two-row sample dataset. -/
theorem fairness_demographicParity_spec_witness :
    sampleFairnessResult.demographicParityDifference =
      maxApprovalRate sampleRows Row.attr - minApprovalRate sampleRows Row.attr ∧
    sampleFairnessResult.demographicParityDifference =
      |maxApprovalRate sampleRows Row.attr - minApprovalRate sampleRows Row.attr| :=
  fairness_demographicParity_spec sampleRows Row.attr sampleFairnessResult rfl

/-! ## Claim C7 -/

/-- Claim C7: the fairness/analyze handler returns a 400 — and so produces
no fairness metrics — exactly when the data is missing or not an array
(`none`), or an empty array, or the protected attribute takes fewer than
two distinct values; in every other case it returns a successful response
body. -/
theorem fairnessPOST_badRequest_spec {G : Type} [DecidableEq G]
    (data : Option (List (Row G))) (groupOf : Row G → G) :
    ((fairnessPOST data groupOf).isBadRequest = true ↔
      data = none ∨ ∃ rows, data = some rows ∧
        (rows.length = 0 ∨ (uniqueGroups rows groupOf).length < 2)) ∧
    ((fairnessPOST data groupOf).isBadRequest = false ↔
      ∃ res, fairnessPOST data groupOf = FairnessResponse.ok res) := by
  constructor
  · cases data with
    | none => simp [fairnessPOST, FairnessResponse.isBadRequest]
    | some rows =>
      simp only [fairnessPOST]
      by_cases h1 : rows.length = 0
      · simp only [h1, if_true, if_pos, FairnessResponse.isBadRequest]
        simp only [true_iff]
        exact Or.inr ⟨rows, rfl, Or.inl h1⟩
      · by_cases h2 : (uniqueGroups rows groupOf).length < 2
        · simp only [if_neg h1, h2, if_true, if_pos, FairnessResponse.isBadRequest]
          simp only [true_iff]
          exact Or.inr ⟨rows, rfl, Or.inr h2⟩
        · simp only [if_neg h1, if_neg h2, FairnessResponse.isBadRequest]
          simp [h1, h2]
          exact fun hb => h1 (by simp [hb])
  · cases hr : fairnessPOST data groupOf <;>
      simp [FairnessResponse.isBadRequest]

/-- Witness for C7: the sample dataset is answered successfully, and the
empty dataset is refused. -/
theorem fairnessPOST_badRequest_spec_witness :
    (fairnessPOST (some sampleRows) Row.attr).isBadRequest = false ∧
    (fairnessPOST (none : Option (List (Row Bool))) Row.attr).isBadRequest = true := by
  constructor
  · exact ((fairnessPOST_badRequest_spec (some sampleRows) Row.attr).2).mpr
      ⟨sampleFairnessResult, rfl⟩
  · exact ((fairnessPOST_badRequest_spec none Row.attr).1).mpr (Or.inl rfl)

/-! ## Claim C8 -/

/-- Claim C8: `calculateGroupMetrics` guards every division — the whole
record is zero when the group is empty, and each conditional rate is 0 when
its denominator (actual positives, actual negatives, approved count) is 0 —
and every returned rate lies in [0, 1]. -/
theorem calculateGroupMetrics_safe {G : Type} [DecidableEq G]
    (data : List (Row G)) (groupOf : Row G → G) (v : G) :
    (0 ≤ (calculateGroupMetrics data groupOf v).approvalRate ∧
      (calculateGroupMetrics data groupOf v).approvalRate ≤ 1) ∧
    (0 ≤ (calculateGroupMetrics data groupOf v).truePositiveRate ∧
      (calculateGroupMetrics data groupOf v).truePositiveRate ≤ 1) ∧
    (0 ≤ (calculateGroupMetrics data groupOf v).falsePositiveRate ∧
      (calculateGroupMetrics data groupOf v).falsePositiveRate ≤ 1) ∧
    (0 ≤ (calculateGroupMetrics data groupOf v).precision ∧
      (calculateGroupMetrics data groupOf v).precision ≤ 1) ∧
    ((groupRows data groupOf v).length = 0 →
      calculateGroupMetrics data groupOf v = GroupMetrics.zero) ∧
    (((groupRows data groupOf v).filter isActualPositive).length = 0 →
      (calculateGroupMetrics data groupOf v).truePositiveRate = 0) ∧
    (((groupRows data groupOf v).filter isActualNegative).length = 0 →
      (calculateGroupMetrics data groupOf v).falsePositiveRate = 0) ∧
    (((groupRows data groupOf v).filter isApprovedRow).length = 0 →
      (calculateGroupMetrics data groupOf v).precision = 0) := by
  by_cases hz : (groupRows data groupOf v).length = 0
  · rw [calculateGroupMetrics]
    simp only [hz, if_true, if_pos]
    simp [GroupMetrics.zero]
  · rw [calculateGroupMetrics]
    simp only [hz, if_false]
    have happ : ((groupRows data groupOf v).filter isApprovedRow).length ≤
        (groupRows data groupOf v).length :=
      List.length_filter_le _ _
    have htp_ap : ((groupRows data groupOf v).filter fun r =>
          isApprovedRow r && isActualPositive r).length ≤
        ((groupRows data groupOf v).filter isActualPositive).length :=
      (List.monotone_filter_right _ fun a ha =>
        (Bool.and_eq_true _ _ ▸ ha).2).length_le
    have hfp_an : ((groupRows data groupOf v).filter fun r =>
          isApprovedRow r && isActualNegative r).length ≤
        ((groupRows data groupOf v).filter isActualNegative).length :=
      (List.monotone_filter_right _ fun a ha =>
        (Bool.and_eq_true _ _ ▸ ha).2).length_le
    have htp_app : ((groupRows data groupOf v).filter fun r =>
          isApprovedRow r && isActualPositive r).length ≤
        ((groupRows data groupOf v).filter isApprovedRow).length :=
      (List.monotone_filter_right _ fun a ha =>
        (Bool.and_eq_true _ _ ▸ ha).1).length_le
    refine ⟨⟨(natDiv_unit _ _ happ).1, (natDiv_unit _ _ happ).2⟩, ?_, ?_, ?_, ?_, ?_, ?_, ?_⟩
    · by_cases hap : ((groupRows data groupOf v).filter isActualPositive).length > 0
      · simp only [hap, if_true, if_pos]
        exact natDiv_unit _ _ htp_ap
      · simp only [hap, if_false]
        norm_num
    · by_cases han : ((groupRows data groupOf v).filter isActualNegative).length > 0
      · simp only [han, if_true, if_pos]
        exact natDiv_unit _ _ hfp_an
      · simp only [han, if_false]
        norm_num
    · by_cases hac : ((groupRows data groupOf v).filter isApprovedRow).length > 0
      · simp only [hac, if_true, if_pos]
        exact natDiv_unit _ _ htp_app
      · simp only [hac, if_false]
        norm_num
    · intro h; exact h.elim
    · intro h; simp [h]
    · intro h; simp [h]
    · intro h; simp [h]

/-! ## Claim C3 -/

/-- Claim C3: the credit-scoring model is a fixed scoring function — the
probability it reports is the base value 0.5 plus one hardcoded
contribution per feature category, each selected by fixed if/else
thresholds (with a `-0.10 * derogatory` term when derogatory marks exist),
the whole clamped to the reporting range; the applicant is approved exactly
when the resulting probability exceeds 0.5, equivalently exactly when the
accumulated raw score exceeds 0.5 (the clamp never changes the decision). -/
theorem calculateCreditScore_spec (f : Features) (rand : ℚ) :
    (calculateCreditScore f rand).probability = clampProb (rawScore f) ∧
    rawScore f =
      0.5 + (creditScoreAdj f.creditScore).1 + (incomeRatioAdj (f.loanAmount / f.income)).1
        + (loanAmountAdj f.loanAmount).1 + (dtiAdj (debtToIncomeOf f)).1
        + (employmentAdj f.employmentLength).1 + (ageAdj f.age).1
        + (homeAdj f.homeOwnership).1 + (derogatoryAdj f.derogatory).1 ∧
    (derogatoryAdj f.derogatory).1 =
      (if 0 < f.derogatory then -0.10 * f.derogatory else 0) ∧
    ((calculateCreditScore f rand).approved = true ↔
      0.5 < (calculateCreditScore f rand).probability) ∧
    ((calculateCreditScore f rand).approved = true ↔ 0.5 < rawScore f) := by
  have happ : (calculateCreditScore f rand).approved =
      decide (0.5 < clampProb (rawScore f)) := rfl
  refine ⟨rfl, rfl, ?_, ?_, ?_⟩
  · rw [derogatoryAdj]
    split
    · rfl
    · rfl
  · rw [happ, decide_eq_true_eq]
    exact Iff.rfl
  · rw [happ, decide_eq_true_eq]
    exact clampProb_gt_half (rawScore f)

/-! ## Claim C10 -/

/-- Claim C10: the probability returned by `calculateCreditScore` is always
in [0.05, 0.95], and the risk score, `(1 - probability) * 100`, is always
in [5, 95]. -/
theorem calculateCreditScore_bounds (f : Features) (rand : ℚ) :
    0.05 ≤ (calculateCreditScore f rand).probability ∧
    (calculateCreditScore f rand).probability ≤ 0.95 ∧
    (calculateCreditScore f rand).riskScore =
      (1 - (calculateCreditScore f rand).probability) * 100 ∧
    5 ≤ (calculateCreditScore f rand).riskScore ∧
    (calculateCreditScore f rand).riskScore ≤ 95 := by
  have h1 : 0.05 ≤ (calculateCreditScore f rand).probability :=
    clampProb_lower (rawScore f)
  have h2 : (calculateCreditScore f rand).probability ≤ 0.95 :=
    clampProb_upper (rawScore f)
  have hrs : (calculateCreditScore f rand).riskScore =
      (1 - (calculateCreditScore f rand).probability) * 100 := rfl
  refine ⟨h1, h2, hrs, ?_, ?_⟩
  · rw [hrs]; nlinarith
  · rw [hrs]; nlinarith

/-! ## Claim C5 -/

/-- Amended claim C5: the model/predict handler is deterministic in
everything except `confidence` — for a fixed request body, the approval
flag, probability, risk score, reasoning and SHAP table of any two
invocations coincide whatever `Math.random()` returns; `confidence` itself
is `0.78 + 0.12 * Math.random()` on every validated request, so the full
response body is not invocation-independent. -/
theorem predictPOST_deterministic_modulo_confidence
    (req : PredictRequest) (r₁ r₂ : ℚ) :
    (predictPOST req r₁).scrubConfidence = (predictPOST req r₂).scrubConfidence := by
  by_cases h : (jsFalsy req.creditScore || jsFalsy req.income || jsFalsy req.loanAmount) = true
  · simp [predictPOST, h]
  · simp only [predictPOST, h, if_false, Bool.false_eq_true]
    rfl

/-- Counterexample for C5 as stated: the same valid request, answered with
two different `Math.random()` draws, yields different response bodies —
the confidences differ. -/
theorem predictPOST_not_deterministic_cex :
    (predictPOST validRequest 0).confidenceOf = some 0.78 ∧
    (predictPOST validRequest (1/2)).confidenceOf = some 0.84 ∧
    predictPOST validRequest 0 ≠ predictPOST validRequest (1/2) := by
  have c1 : (predictPOST validRequest 0).confidenceOf = some 0.78 := by
    simp +decide [predictPOST, validRequest, jsFalsy, requestFeatures,
      calculateCreditScore, PredictResponse.confidenceOf]
  have c2 : (predictPOST validRequest (1/2)).confidenceOf = some 0.84 := by
    simp +decide [predictPOST, validRequest, jsFalsy, requestFeatures,
      calculateCreditScore, PredictResponse.confidenceOf]
    norm_num
  refine ⟨c1, c2, fun h => ?_⟩
  rw [h] at c1
  have : (0.78 : ℚ) = 0.84 := Option.some.inj (c1.symm.trans c2)
  norm_num at this

/-! ## Claim C6 -/

/-- Amended claim C6: the model/predict handler returns 400 exactly when
one of `creditScore`, `income`, `loanAmount` is falsy — absent or equal
to 0 — and otherwise returns the prediction for the submitted features;
mere presence of the three fields is not enough, since a present-but-zero
field also fails the `!features.creditScore` truthiness test. -/
theorem predictPOST_badRequest_spec (req : PredictRequest) (rand : ℚ) :
    (predictPOST req rand).isBadRequest =
      (jsFalsy req.creditScore || jsFalsy req.income || jsFalsy req.loanAmount) ∧
    ((jsFalsy req.creditScore || jsFalsy req.income || jsFalsy req.loanAmount) = false →
      predictPOST req rand =
        PredictResponse.ok (calculateCreditScore (requestFeatures req) rand)
          (predictShapValues (requestFeatures req))) := by
  by_cases h : (jsFalsy req.creditScore || jsFalsy req.income || jsFalsy req.loanAmount) = true
  · constructor
    · simp [predictPOST, h, PredictResponse.isBadRequest]
    · intro hf
      rw [hf] at h
      cases h
  · have h' : (jsFalsy req.creditScore || jsFalsy req.income || jsFalsy req.loanAmount)
        = false := by
      simpa using h
    constructor
    · simp [predictPOST, h', PredictResponse.isBadRequest]
    · intro _
      simp [predictPOST, h']

/-- Counterexample for C6 as stated: a request in which all three required
fields are present — `creditScore` is submitted with value 0 — is still
answered with a 400. -/
theorem predictPOST_present_zero_cex :
    zeroScoreRequest.creditScore = some 0 ∧
    zeroScoreRequest.income = some 60000 ∧
    zeroScoreRequest.loanAmount = some 30000 ∧
    (predictPOST zeroScoreRequest 0).isBadRequest = true := by
  refine ⟨rfl, rfl, rfl, ?_⟩
  decide

/-! ## Claim C4 -/

/-- Amended claim C4: every per-feature contribution reported by an
individual SHAP explanation is a hardcoded constant chosen solely by
threshold intervals on that feature's value, except the derogatory-marks
contribution, which is `-0.10` times the number of marks whenever that
number is positive (and the constant `0.02` otherwise); the prediction
value passed to `calculateShapValues` has no effect on the result, and no
Shapley-value computation is performed — the returned list is exactly the
fixed contribution table, reordered. -/
theorem calculateShapValues_spec (f : Features) (p₁ p₂ : ℚ) :
    calculateShapValues f p₁ = calculateShapValues f p₂ ∧
    (calculateShapValues f p₁).Perm (shapEntries f) ∧
    contributionOf (calculateShapValues f p₁) "derogatory" =
      some (if 0 < f.derogatory then -0.10 * f.derogatory else 0.02) := by
  have hperm := sortByAbsDesc_perm (shapEntries f)
  refine ⟨rfl, hperm, ?_⟩
  have hmem : derogEntry f ∈ shapEntries f := by
    simp [shapEntries, derogEntry]
  have hmem' : derogEntry f ∈ calculateShapValues f p₁ := hperm.mem_iff.mpr hmem
  have hpd : decide ((derogEntry f).feature = "derogatory") = true := by
    rw [decide_eq_true_eq]
    rfl
  have huniq : ∀ x, x ∈ calculateShapValues f p₁ →
      decide (x.feature = "derogatory") = true → x = derogEntry f := by
    intro x hx hpx
    have hx' : x ∈ shapEntries f := hperm.mem_iff.mp hx
    rw [decide_eq_true_eq] at hpx
    simp only [shapEntries, List.mem_cons, List.not_mem_nil, or_false] at hx'
    rcases hx' with h | h | h | h | h | h | h | h <;> subst h <;>
      first
      | rfl
      | simp at hpx
  have hfind := find?_eq_of_unique (fun e => decide (e.feature = "derogatory"))
    (calculateShapValues f p₁) (derogEntry f) hmem' hpd huniq
  rw [contributionOf, hfind]
  show some (shapDerogContribution f.derogatory) = _
  rw [shapDerogContribution]

/-- Counterexample for C4 as stated: one versus two derogatory marks both
fall in the same threshold interval (`derogatory > 0`), yet the reported
derogatory contribution differs (`-0.10` versus `-0.20`), so that
contribution is not a fixed constant of the interval. -/
theorem calculateShapValues_derog_cex :
    0 < derogOneFeatures.derogatory ∧ 0 < derogTwoFeatures.derogatory ∧
    contributionOf (calculateShapValues derogOneFeatures 0.5) "derogatory" =
      some (-1/10) ∧
    contributionOf (calculateShapValues derogTwoFeatures 0.5) "derogatory" =
      some (-1/5) ∧
    contributionOf (calculateShapValues derogOneFeatures 0.5) "derogatory" ≠
      contributionOf (calculateShapValues derogTwoFeatures 0.5) "derogatory" := by
  have e1 : contributionOf (calculateShapValues derogOneFeatures 0.5) "derogatory" =
      some (-1/10) := by
    norm_num +decide [contributionOf, calculateShapValues, derogOneFeatures, shapEntries,
      sortByAbsDesc, insertByAbsDesc, absQ, shapCreditContribution, shapIncomeContribution,
      shapLoanContribution, shapDtiContribution, shapEmploymentContribution,
      shapAgeContribution, shapHomeContribution, shapDerogContribution, debtToIncomeOf,
      List.find?]
  have e2 : contributionOf (calculateShapValues derogTwoFeatures 0.5) "derogatory" =
      some (-1/5) := by
    norm_num +decide [contributionOf, calculateShapValues, derogTwoFeatures,
      derogOneFeatures, shapEntries,
      sortByAbsDesc, insertByAbsDesc, absQ, shapCreditContribution, shapIncomeContribution,
      shapLoanContribution, shapDtiContribution, shapEmploymentContribution,
      shapAgeContribution, shapHomeContribution, shapDerogContribution, debtToIncomeOf,
      List.find?]
  refine ⟨by norm_num [derogOneFeatures], by norm_num [derogTwoFeatures, derogOneFeatures],
    e1, e2, ?_⟩
  rw [e1, e2]
  intro hcon
  have : (-1/10 : ℚ) = -1/5 := Option.some.inj hcon
  norm_num at this

/-! ## Claim C9 -/

theorem shapPOST_ok_inv {f : Features} {prediction : Option ℚ} {ty : String}
    {res : ShapExplanation} (hty : ty ≠ "global")
    (h : shapPOST (some f) prediction ty = ShapResponse.ok res) :
    ∃ pv, res = shapOkBody f pv := by
  simp only [shapPOST] at h
  rw [if_neg hty] at h
  exact ⟨_, (ShapResponse.ok.inj h).symm⟩

/-- Claim C9: for every individual SHAP explanation request with features
present, the returned `finalPrediction` is the base value 0.5 plus the sum
of all returned per-feature contributions, clamped to [0.05, 0.95], and the
interpretation decision is `"Approved"` exactly when `finalPrediction`
exceeds 0.5 and `"Rejected"` otherwise. -/
theorem shapPOST_finalPrediction_spec (f : Features) (prediction : Option ℚ)
    (ty : String) (res : ShapExplanation) (hty : ty ≠ "global")
    (h : shapPOST (some f) prediction ty = ShapResponse.ok res) :
    res.finalPrediction =
      max 0.05 (min 0.95 (0.5 + ((res.shapValues.map fun e => e.contribution).sum))) ∧
    0.05 ≤ res.finalPrediction ∧ res.finalPrediction ≤ 0.95 ∧
    res.decision = (if 0.5 < res.finalPrediction then "Approved" else "Rejected") ∧
    (res.decision = "Approved" ↔ 0.5 < res.finalPrediction) := by
  obtain ⟨pv, rfl⟩ := shapPOST_ok_inv hty h
  have hfp : (shapOkBody f pv).finalPrediction =
      max 0.05 (min 0.95
        (0.5 + (calculateShapValues f pv).foldl (fun s sv => s + sv.contribution) 0)) := rfl
  have hsum : (calculateShapValues f pv).foldl (fun s sv => s + sv.contribution) 0 =
      ((calculateShapValues f pv).map fun e => e.contribution).sum := by
    rw [foldl_add_contribution]
    ring
  have hdec : (shapOkBody f pv).decision =
      (if 0.5 < (shapOkBody f pv).finalPrediction then "Approved" else "Rejected") := rfl
  refine ⟨?_, ?_, ?_, hdec, ?_⟩
  · rw [hfp, hsum]
    rfl
  · rw [hfp]
    exact le_max_left _ _
  · rw [hfp]
    exact max_le (by norm_num) (min_le_left _ _)
  · rw [hdec]
    by_cases hgt : 0.5 < (shapOkBody f pv).finalPrediction
    · simp [hgt]
    · rw [if_neg hgt]
      constructor
      · intro hcon
        exact absurd hcon (by simp)
      · intro hcon
        exact absurd hcon hgt

/-- Witness for C9 on a concrete individual explanation request. -/
theorem shapPOST_finalPrediction_spec_witness :
    sampleShapExplanation.finalPrediction =
      max 0.05 (min 0.95
        (0.5 + ((sampleShapExplanation.shapValues.map fun e => e.contribution).sum))) ∧
    0.05 ≤ sampleShapExplanation.finalPrediction ∧
    sampleShapExplanation.finalPrediction ≤ 0.95 ∧
    sampleShapExplanation.decision =
      (if 0.5 < sampleShapExplanation.finalPrediction then "Approved" else "Rejected") ∧
    (sampleShapExplanation.decision = "Approved" ↔
      0.5 < sampleShapExplanation.finalPrediction) :=
  shapPOST_finalPrediction_spec sampleShapFeatures none "individual"
    sampleShapExplanation (by decide) rfl
